import Mathlib

/-
Verification development for the Modbus TCP client driver (drvModbus.h /
drvModbus.c).  The driver is embedded shallowly: byte buffers are lists of
natural numbers below 256, 16-bit quantities are naturals reduced modulo
2 ^ 16 where the C code truncates, and the stateful plumbing (the device
mutex, the socket) is made explicit.  Each public operation is modelled as a
pure function from its arguments plus an environment (the value produced by
rand, the sequence of frames the socket would deliver, and the contents of
uninitialized heap memory that the code can read through overruns) to a
trace recording the returned status code, the frames handed to sendto, the
number of mutex lock and unlock calls, and the bytes written to the
caller-supplied output buffer.

Modelling conventions, stated once:
- sockaddr_in values are modelled as single naturals; the memcmp equality
  test in modbus_RecvBlock becomes equality of those naturals.
- recvfrom is modelled as delivering a whole frame from the given source
  address stream; exhaustion of the stream models a recvfrom failure.  The
  source passes the allocation size to recvfrom, which can clip a frame;
  that clipping is independent of the control-flow and byte-manipulation
  properties settled here, and the modelled behaviour is the one in which
  the code is given every byte it asked the protocol for.
- reads past the end of a received buffer yield 0 (List.getD) or the
  environment-supplied junk bytes, and writes past the end are dropped
  (List.set out of range).  In C these touch uninitialized or out-of-bounds
  heap memory; no theorem below depends on such a byte except where the
  statement explicitly inspects only in-bounds positions.
-/

/-- The LITTLE_TO_BIG_ENDIAN / BIG_TO_LITTLE_ENDIAN macro applied to a
16-bit value x: ((x >> 8) & 0xFF) | ((x << 8) & 0xFF00), truncated into a
uint16.  For x < 2 ^ 16 the two disjoint byte fields make the bitwise or an
addition, giving this arithmetic form: the two bytes are swapped. -/
def swap16 (x : Nat) : Nat := x / 256 % 256 + x % 256 * 256

/-- The same macro expansion assigned into a uint8 variable, as done in the
register conversion loop of modbus_ReadInputRegisters: the int-typed macro
value is truncated modulo 256 on assignment. -/
def swap16u8 (b : Nat) : Nat := (b / 256 % 256 + b % 256 * 256) % 256

/-- The two bytes of a uint16 as laid out in memory by a little-endian
host (the layout memcpy serializes for the packed MBAP header struct). -/
def toLE16 (x : Nat) : List Nat := [x % 256, x / 256 % 256]

/-- Reading a uint16 from the first two bytes of a buffer on a
little-endian host (missing bytes read as 0). -/
def fromLE16 (l : List Nat) : Nat := l.getD 0 0 + 256 * l.getD 1 0

/-- Reading uint16 element i of a byte buffer, i.e. the two bytes at byte
offsets 2*i and 2*i+1, little-endian host order. -/
def get16 (b : List Nat) (i : Nat) : Nat := b.getD (2 * i) 0 + 256 * b.getD (2 * i + 1) 0

/-- Writing uint16 element i of a byte buffer; out-of-range writes are
dropped. -/
def set16 (b : List Nat) (i v : Nat) : List Nat :=
  (b.set (2 * i) (v % 256)).set (2 * i + 1) (v / 256 % 256)

/-- A well-formed response frame from the remote device: a 7-byte MBAP
header followed by the PDU.  The device echoes back the transaction-id
bytes exactly as the client sent them, and the client sent them in host
little-endian order (see modbus_ConstructPacket below), so the leading two
bytes here are the little-endian image of the transaction id.  The length
and protocol-id fields are never read by the client. -/
def mkFrame (tid : Nat) (pdu : List Nat) : List Nat :=
  toLE16 tid ++ toLE16 0 ++ toLE16 (pdu.length + 1) ++ 255 :: pdu

/-- The request structures (function code, padding byte inserted by the
compiler, big-endian-swapped address, big-endian-swapped count or value)
as the 6 bytes the unpacked C struct occupies.  The padding byte is
uninitialized in the source and is modelled as 0; no property below
depends on the request PDU bytes. -/
def reqPdu (code addr cnt : Nat) : List Nat :=
  code :: 0 :: (toLE16 (swap16 addr) ++ toLE16 (swap16 cnt))

/-- The environment an operation runs in: the value rand() produces for the
transaction id, the successive (source address, bytes) results recvfrom
would deliver, and the uninitialized heap bytes visible through overruns. -/
structure Env where
  r : Nat
  frames : List (Nat × List Nat)
  junk : List Nat

/-- The observable trace of one driver operation: the returned int, the
frames passed to sendto in order, how many times the device mutex was
locked and unlocked, and the bytes written through the caller-supplied
output pointer. -/
structure OpTrace where
  ret : Int
  sent : List (List Nat)
  locks : Nat
  unlocks : Nat
  out : List Nat
  deriving Repr, DecidableEq

/-- Embedding of modbus_ConstructPacket: fills the packed MBAP header
struct with protocol_id = 0, trans_id = rand() % 65535, unit_id = 255 and
len = nLen + 1, then memcpys the struct followed by the PDU into the
output buffer.  On a little-endian host the memcpy serializes each uint16
field in little-endian byte order, since the code applies no host-to-network
conversion to the header.  r models the rand() value; the result is the
wire frame together with the transaction id stored through transactionID. -/
def modbus_ConstructPacket (pdu : List Nat) (r : Nat) : List Nat × Nat :=
  let tid := r % 65535
  ((toLE16 tid ++ toLE16 0 ++ toLE16 (pdu.length + 1) ++ 255 :: []) ++ pdu, tid)

/-- Embedding of modbus_SendPacket for a valid device: constructs the
frame, hands it to modbus_SendBlock (whose result the source ignores), and
returns the transaction id as an int; -1 is returned only on the failure
paths (null device, failed construction), which do not arise for the valid
inputs modelled here. -/
def modbus_SendPacket (pdu : List Nat) (r : Nat) : List Nat × Int :=
  ((modbus_ConstructPacket pdu r).1, ((modbus_ConstructPacket pdu r).2 : Int))

/-- Embedding of modbus_RecvBlock: repeatedly receive, discarding every
datagram whose source address differs from the device address (the memcmp
loop), until a frame from the device arrives; a recvfrom failure (modelled
as exhaustion of the stream) yields none, the -1 return. -/
def modbus_RecvBlock (devAddr : Nat) : List (Nat × List Nat) → Option (List Nat)
  | [] => none
  | (src, bs) :: rest =>
      if src = devAddr then some bs else modbus_RecvBlock devAddr rest

/-- Embedding of modbus_RecvPacket: receive a block, read the packed MBAP
header from its leading bytes (host little-endian, hence fromLE16 for the
trans_id field), and if the transaction id matches, move the bytes after
the 7-byte header to the front of the buffer and return the received
length; any transaction-id mismatch returns -1 (none) at once.  When
modbus_RecvBlock fails the source reads the header from an unwritten
buffer and returns -1 on the (overwhelmingly likely) mismatch; that path
is modelled as none. -/
def modbus_RecvPacket (devAddr : Nat) (frames : List (Nat × List Nat)) (tID : Nat) :
    Option (Nat × List Nat) :=
  match modbus_RecvBlock devAddr frames with
  | none => none
  | some bs => if fromLE16 bs = tID then some (bs.length, bs.drop 7) else none

/-- The Modbus exception codes defined at the top of drvModbus.h. -/
def modbusExceptionCodes : List Nat := [1, 2, 3, 4, 5, 6, 7, 0xA, 0xB]

/-- Test environment for modbus_WriteSingleRegister: the device answers
with a well-formed frame echoing address addrE and value valE in the
response-structure layout the code reads (function code, padding byte p,
then each field as a big-endian u16, i.e. the byte-swapped value laid out
little-endian). -/
def echoEnv (devAddr r p addrE valE : Nat) (junk : List Nat) : Env :=
  ⟨r, [(devAddr, mkFrame (r % 65535)
        ([6, p] ++ toLE16 (swap16 addrE) ++ toLE16 (swap16 valE)))], junk⟩

-- Small arithmetic facts about the byte-swap.

theorem swap16_lt (x : Nat) : swap16 x < 65536 := by
  unfold swap16; omega

theorem swap16_inj {x y : Nat} (hx : x < 65536) (hy : y < 65536) :
    swap16 x = swap16 y ↔ x = y := by
  unfold swap16; omega

theorem fromLE16_toLE16_append (t : Nat) (l : List Nat) (h : t < 65536) :
    fromLE16 (toLE16 t ++ l) = t := by
  simp [toLE16, fromLE16, List.getD]; omega

theorem mkFrame_drop7 (t : Nat) (pdu : List Nat) : (mkFrame t pdu).drop 7 = pdu := by
  simp [mkFrame, toLE16]

theorem mkFrame_length (t : Nat) (pdu : List Nat) :
    (mkFrame t pdu).length = 7 + pdu.length := by
  simp [mkFrame, toLE16]; omega

/-- The register byte-swap loop of modbus_ReadHoldingRegisters, written with
explicit fuel (one unit per iteration).  The loop body is
((uint16_t*)pBuf)[i] = BIG_TO_LITTLE_ENDIAN(((uint16_t*)pBuf)[i]): the
buffer is indexed as a uint16 array with the BYTE counter i, so iteration i
touches byte offsets 2*i and 2*i+1. -/
def regSwapSteps : Nat → Nat → List Nat → List Nat
  | 0, _, buf => buf
  | fuel + 1, i, buf => regSwapSteps fuel (i + 2) (set16 buf i (swap16 (get16 buf i)))

/-- for (int i = 2; i < len; i += 2) over the uint16-indexed buffer: the
number of iterations is the number of even i with 2 <= i < len. -/
def regSwapLoop (len : Nat) (buf : List Nat) : List Nat :=
  regSwapSteps ((len - 2 + 1) / 2) 2 buf

/-- The conversion loop of modbus_ReadInputRegisters, explicit fuel.  The
body is ((uint8_t*)pBuf)[i] = BIG_TO_LITTLE_ENDIAN(((uint8_t*)pBuf)[i]):
each visited BYTE is replaced by the 16-bit swap of its own value truncated
into a uint8, which is 0 for any byte value. -/
def byteSwapSteps : Nat → Nat → List Nat → List Nat
  | 0, _, buf => buf
  | fuel + 1, i, buf => byteSwapSteps fuel (i + 2) (buf.set i (swap16u8 (buf.getD i 0)))

/-- for (int i = 2; i < len; i += 2) over the byte-indexed buffer. -/
def byteSwapLoop (len : Nat) (buf : List Nat) : List Nat :=
  byteSwapSteps ((len - 2 + 1) / 2) 2 buf

/-- Embedding of modbus_ReadCoils for a valid device and valid output
pointers.  The source rejects ncoils > 0x7D0 before any socket use, else
builds the request, connects (locking the mutex), sends, and receives into
a buffer of ncoils + 2 bytes.  On an exception response (first byte 0x81)
it returns *(uint8_t*)pBuf + 1 — operator precedence makes that the FIRST
byte plus one, not the second byte — without unlocking.  On a receive
failure it returns -1 without unlocking.  On success it assigns the second
byte to the local pointer variable nOutCoils (the caller-visible count is
never written), copies len - 2 = ncoils payload bytes out, unlocks, and
returns 0. -/
def modbus_ReadCoils (devAddr addr ncoils : Nat) (env : Env) : OpTrace :=
  if 0x7D0 < ncoils then
    { ret := -1, sent := [], locks := 0, unlocks := 0, out := [] }
  else
    let pdu := reqPdu 0x01 addr ncoils
    let frame := (modbus_SendPacket pdu env.r).1
    let tid := (modbus_SendPacket pdu env.r).2
    match modbus_RecvPacket devAddr env.frames tid.toNat with
    | some (_len, buf) =>
        if buf.getD 0 0 = 0x81 then
          { ret := ((buf.getD 0 0 + 1 : Nat) : Int), sent := [frame], locks := 1, unlocks := 0,
            out := [] }
        else
          { ret := 0, sent := [frame], locks := 1, unlocks := 1,
            out := ((buf ++ env.junk).drop 2).take ncoils }
    | none =>
        { ret := -1, sent := [frame], locks := 1, unlocks := 0, out := [] }

/-- Embedding of modbus_WriteSingleRegister for a valid device.  The
request struct carries the byte-swapped address and value; the response
struct is zero-filled, then overwritten by modbus_RecvPacket when a frame
arrives (its return value, stored in bytes, is never examined).  The
address and value fields sit at byte offsets 2 and 4 of the unpacked
struct, read in host order.  A mismatch of either field against the
request returns -1 WITHOUT unlocking; a match unlocks and returns 0. -/
def modbus_WriteSingleRegister (devAddr addr value : Nat) (env : Env) : OpTrace :=
  let pdu := reqPdu 0x06 addr value
  let frame := (modbus_SendPacket pdu env.r).1
  let tid := (modbus_SendPacket pdu env.r).2
  let res : List Nat :=
    match modbus_RecvPacket devAddr env.frames tid.toNat with
    | some (_, buf) => buf
    | none => []
  let resAddr := fromLE16 (res.drop 2)
  let resValue := fromLE16 (res.drop 4)
  if swap16 value ≠ resValue ∨ swap16 addr ≠ resAddr then
    { ret := -1, sent := [frame], locks := 1, unlocks := 0, out := [] }
  else
    { ret := 0, sent := [frame], locks := 1, unlocks := 1, out := [] }

/-- Embedding of modbus_ReadHoldingRegisters for a valid device.  The
source performs NO range validation on nregs: it builds the request,
connects (lock), sends, receives into a buffer of 2*nregs + 2 bytes, and
calls modbus_DisconnectDevice (unlock) immediately after the receive, on
every post-receive path.  len is a size_t, so the len < 0 test after a
failed receive can never fire; that path reads an unwritten buffer and is
modelled as the -1 return the test intended (no claim exercises it).  An
exception response (first byte 0x83) returns *(uint8_t*)pBuf + 1 = 0x84,
first byte plus one.  Otherwise the register swap loop runs with the
received length and the bytes from offset 2 up to len - 2 of them are
copied to the caller. -/
def modbus_ReadHoldingRegisters (devAddr addr nregs : Nat) (env : Env) : OpTrace :=
  let pdu := reqPdu 0x03 addr nregs
  let frame := (modbus_SendPacket pdu env.r).1
  let tid := (modbus_SendPacket pdu env.r).2
  if tid < 0 then
    { ret := -1, sent := [frame], locks := 1, unlocks := 0, out := [] }
  else
    match modbus_RecvPacket devAddr env.frames tid.toNat with
    | none =>
        { ret := -1, sent := [frame], locks := 1, unlocks := 1, out := [] }
    | some (len, buf) =>
        if buf.getD 0 0 = 0x83 then
          { ret := ((buf.getD 0 0 + 1 : Nat) : Int), sent := [frame], locks := 1, unlocks := 1,
            out := [] }
        else
          let buf2 := regSwapLoop len buf
          { ret := 0, sent := [frame], locks := 1, unlocks := 1,
            out := ((buf2 ++ env.junk).drop 2).take (len - 2) }

/-- Embedding of modbus_ReadInputRegisters for a valid device.  The source
performs NO range validation on nregs and NEVER calls
modbus_DisconnectDevice on any path, success included.  The exception
branch (first byte 0x84) correctly returns the second byte
*((uint8_t*)pBuf + 1).  The conversion loop zeroes every even-offset byte
from 2 up (see byteSwapLoop); pOutRegs is assigned as a pointer, never
written through.  The len < 0 test is again dead (size_t); the failed
receive path is modelled as its intended -1 return. -/
def modbus_ReadInputRegisters (devAddr addr nregs : Nat) (env : Env) : OpTrace :=
  let pdu := reqPdu 0x04 addr nregs
  let frame := (modbus_SendPacket pdu env.r).1
  let tid := (modbus_SendPacket pdu env.r).2
  if tid < 0 then
    { ret := -1, sent := [frame], locks := 1, unlocks := 0, out := [] }
  else
    match modbus_RecvPacket devAddr env.frames tid.toNat with
    | none =>
        { ret := -1, sent := [frame], locks := 1, unlocks := 0, out := [] }
    | some (len, buf) =>
        if buf.getD 0 0 = 0x84 then
          { ret := ((buf.getD 1 0 : Nat) : Int), sent := [frame], locks := 1, unlocks := 0,
            out := [] }
        else
          let buf2 := byteSwapLoop len buf
          { ret := 0, sent := [frame], locks := 1, unlocks := 0,
            out := ((buf2 ++ env.junk).drop 2).take (len - 2) }

theorem fromLE16_toLE16 (t : Nat) (h : t < 65536) : fromLE16 (toLE16 t) = t := by
  simp [toLE16, fromLE16, List.getD]; omega

theorem fromLE16_mkFrame (t : Nat) (pdu : List Nat) (h : t < 65536) :
    fromLE16 (mkFrame t pdu) = t := by
  simp [mkFrame, toLE16, fromLE16, List.getD]; omega

/-- Claim C9: every transaction id produced by modbus_ConstructPacket is
rand() % 65535, hence at most 65534 — the value 65535 is never generated —
and the int modbus_SendPacket returns on success (the transaction id) can
never equal its failure return -1. -/
theorem constructPacket_transaction_id_range (pdu : List Nat) (r : Nat) :
    (modbus_ConstructPacket pdu r).2 = r % 65535
    ∧ (modbus_ConstructPacket pdu r).2 < 65535
    ∧ (modbus_SendPacket pdu r).2 ≠ -1 := by
  refine ⟨rfl, Nat.mod_lt _ (by decide), ?_⟩
  simp [modbus_SendPacket, modbus_ConstructPacket]
  omega

/-- Claim C7: evaluated at a 5-byte PDU with rand value 258 (transaction
id 0x0102 = 258): the frame built by modbus_ConstructPacket carries the
header fields in host little-endian byte order — transaction id as bytes
02 01 and length 6 = nLen + 1 as bytes 06 00 — and not the big-endian
serialization the claim requires (which would be 01 02 and 00 06).  The
7-byte header size, protocol id 0, unit id 255 and length = nLen + 1 do
hold. -/
theorem constructPacket_header_host_order :
    (modbus_ConstructPacket [1, 2, 3, 4, 5] 258).1
      = [2, 1, 0, 0, 6, 0, 255, 1, 2, 3, 4, 5]
    ∧ (modbus_ConstructPacket [1, 2, 3, 4, 5] 258).1
      ≠ [1, 2, 0, 0, 0, 6, 255, 1, 2, 3, 4, 5] := by decide

/-- Claim C10: modbus_ReadCoils rejects a coil count only when it is
strictly greater than 0x7D0 = 2000: a request frame reaches the wire
exactly when ncoils ≤ 2000 (so ncoils = 0 and ncoils = 2000 both pass
validation and are sent), and when ncoils > 2000 the call returns -1
before any I/O, with nothing sent and the lock untouched. -/
theorem readCoils_range_check (devAddr addr ncoils : Nat) (env : Env) :
    ((modbus_ReadCoils devAddr addr ncoils env).sent = [] ↔ 2000 < ncoils)
    ∧ (2000 < ncoils → modbus_ReadCoils devAddr addr ncoils env
        = { ret := -1, sent := [], locks := 0, unlocks := 0, out := [] }) := by
  unfold modbus_ReadCoils
  by_cases h : 2000 < ncoils
  · simp [h]
  · rw [if_neg (by omega)]
    cases hm : modbus_RecvPacket devAddr env.frames
        ((modbus_SendPacket (reqPdu 1 addr ncoils) env.r).2).toNat with
    | none => simp [hm, h]
    | some p =>
        obtain ⟨len, buf⟩ := p
        simp [hm, h]
        split <;> simp

theorem readCoils_range_check_witness :
    ((modbus_ReadCoils 7 3 2000 ⟨5, [], []⟩).sent = [] ↔ 2000 < 2000)
    ∧ (2000 < 2000 → modbus_ReadCoils 7 3 2000 ⟨5, [], []⟩
        = { ret := -1, sent := [], locks := 0, unlocks := 0, out := [] }) :=
  readCoils_range_check 7 3 2000 ⟨5, [], []⟩

/-- Claim C1: modbus_ReadHoldingRegisters performs no pre-I/O range
validation at all: called with nregs = 126 (0x7E, outside the documented
1..125 range) it locks the device and sends a request frame to the wire
instead of rejecting the call before I/O.  Evaluated at a concrete
environment; the send happens before any receive, so the empty frame
stream is irrelevant to it. -/
theorem readHoldingRegisters_sends_oversized_count :
    (modbus_ReadHoldingRegisters 7 3 126 ⟨5, [], []⟩).sent.length = 1
    ∧ (modbus_ReadHoldingRegisters 7 3 126 ⟨5, [], []⟩).locks = 1 := by decide

/-- Claim C2: two exit paths that return with the device mutex still held.
(a) modbus_ReadInputRegisters never calls modbus_DisconnectDevice: even a
fully successful exchange (nregs = 3, well-formed response, return 0)
finishes with one lock and zero unlocks.  (b) modbus_WriteSingleRegister
with an echo mismatch (request value 1234, echoed value 9999) returns -1
with one lock and zero unlocks. -/
theorem lock_leaked_on_exit_paths :
    ((modbus_ReadInputRegisters 7 0 3
        ⟨5, [(7, mkFrame 5 [0x04, 6, 0, 1, 0, 2, 0, 3])], []⟩).ret = 0
      ∧ (modbus_ReadInputRegisters 7 0 3
        ⟨5, [(7, mkFrame 5 [0x04, 6, 0, 1, 0, 2, 0, 3])], []⟩).locks = 1
      ∧ (modbus_ReadInputRegisters 7 0 3
        ⟨5, [(7, mkFrame 5 [0x04, 6, 0, 1, 0, 2, 0, 3])], []⟩).unlocks = 0)
    ∧ ((modbus_WriteSingleRegister 7 10 1234
        ⟨5, [(7, mkFrame 5 ([6, 0] ++ toLE16 (swap16 10) ++ toLE16 (swap16 9999)))], []⟩).ret = -1
      ∧ (modbus_WriteSingleRegister 7 10 1234
        ⟨5, [(7, mkFrame 5 ([6, 0] ++ toLE16 (swap16 10) ++ toLE16 (swap16 9999)))], []⟩).locks = 1
      ∧ (modbus_WriteSingleRegister 7 10 1234
        ⟨5, [(7, mkFrame 5 ([6, 0] ++ toLE16 (swap16 10) ++ toLE16 (swap16 9999)))], []⟩).unlocks = 0) := by
  decide

/-- Claim C5: the host-order conversion is wrong in both register reads,
evaluated at nregs = 1 with the device register value 0x0102 (wire bytes
01 02; the correct host little-endian image in the caller buffer would be
bytes 02 01).  modbus_ReadHoldingRegisters indexes the buffer as a uint16
array with a byte counter, so the swap first touches byte offset 4 and the
first register is copied out unswapped: the caller receives bytes 01 02,
the u16 value 0x0201.  modbus_ReadInputRegisters applies the 16-bit swap
macro to single bytes, zeroing each visited byte: the caller receives
bytes 00 02, the u16 value 0x0200.  Neither is the claimed 02 01. -/
theorem register_reads_botch_byte_order :
    ((modbus_ReadHoldingRegisters 7 0 1
        ⟨5, [(7, mkFrame 5 [0x03, 2, 1, 2])], [9, 9, 9, 9, 9, 9, 9]⟩).out.take 2 = [1, 2]
      ∧ (modbus_ReadHoldingRegisters 7 0 1
        ⟨5, [(7, mkFrame 5 [0x03, 2, 1, 2])], [9, 9, 9, 9, 9, 9, 9]⟩).ret = 0)
    ∧ ((modbus_ReadInputRegisters 7 0 1
        ⟨5, [(7, mkFrame 5 [0x04, 2, 1, 2])], [9, 9, 9, 9, 9, 9, 9]⟩).out.take 2 = [0, 2]
      ∧ (modbus_ReadInputRegisters 7 0 1
        ⟨5, [(7, mkFrame 5 [0x04, 2, 1, 2])], [9, 9, 9, 9, 9, 9, 9]⟩).ret = 0)
    ∧ ([1, 2] : List Nat) ≠ [2, 1] ∧ ([0, 2] : List Nat) ≠ [2, 1] := by decide

/-- Claim C6: modbus_ReadCoils, delivered the exception PDU [0x81, 0x03]
(function code 0x01 with bit 0x80 set, exception code 3), returns
0x82 = 130: the return expression adds one to the FIRST pdu byte instead
of reading the second byte, so the exception code 3 is not surfaced
intact. -/
theorem readCoils_exception_code_mangled :
    (modbus_ReadCoils 7 0 5 ⟨5, [(7, mkFrame 5 [0x81, 0x03])], []⟩).ret = 130
    ∧ (130 : Int) ≠ 3 := by decide

/-- Claim C3 counterexample: two frames are queued from the device
(address 7), the first bearing transaction id 10 and the next the awaited
id 9.  modbus_RecvPacket for id 9 returns -1 (none) on the first frame
instead of discarding it and continuing to wait for the correct one —
yet the correct frame alone would have been accepted.  A transaction-id
mismatch is therefore treated as a failure, not as a discarded frame. -/
theorem recvPacket_fails_on_tid_mismatch :
    modbus_RecvPacket 7 [(7, mkFrame 10 [4, 2, 0, 0]), (7, mkFrame 9 [4, 2, 0, 0])] 9 = none
    ∧ modbus_RecvPacket 7 [(7, mkFrame 9 [4, 2, 0, 0])] 9 = some (11, [4, 2, 0, 0]) := by
  decide

/-- Claim C3 amended: the peer-address half of the claim holds — a frame
whose source address differs from the device is skipped by the
modbus_RecvBlock loop, without being an error, and the wait continues —
and a frame from the device whose transaction id matches is returned with
its header stripped; but a frame from the device whose transaction id does
NOT match makes modbus_RecvPacket return -1 (none) immediately rather than
continuing to wait. -/
theorem recvPacket_matching (devAddr other tid tid2 : Nat) (pdu pdu2 : List Nat)
    (rest : List (Nat × List Nat)) (hne : other ≠ devAddr) (ht : tid < 65536)
    (ht2 : tid2 < 65536) (hmm : tid2 ≠ tid) :
    modbus_RecvPacket devAddr ((other, pdu2) :: rest) tid
      = modbus_RecvPacket devAddr rest tid
    ∧ modbus_RecvPacket devAddr ((devAddr, mkFrame tid pdu) :: rest) tid
      = some (7 + pdu.length, pdu)
    ∧ modbus_RecvPacket devAddr ((devAddr, mkFrame tid2 pdu) :: rest) tid = none := by
  refine ⟨?_, ?_, ?_⟩
  · simp [modbus_RecvPacket, modbus_RecvBlock, hne]
  · simp [modbus_RecvPacket, modbus_RecvBlock, fromLE16_mkFrame _ _ ht,
      mkFrame_drop7, mkFrame_length]
  · simp [modbus_RecvPacket, modbus_RecvBlock, fromLE16_mkFrame _ _ ht2, hmm]

theorem recvPacket_matching_witness :
    modbus_RecvPacket 7 [(3, [1]), (7, mkFrame 9 [4, 2, 0, 5])] 9
      = modbus_RecvPacket 7 [(7, mkFrame 9 [4, 2, 0, 5])] 9
    ∧ modbus_RecvPacket 7 [(7, mkFrame 9 [4, 2, 0, 5]), (7, mkFrame 9 [4, 2, 0, 5])] 9
      = some (7 + [4, 2, 0, 5].length, [4, 2, 0, 5])
    ∧ modbus_RecvPacket 7 [(7, mkFrame 10 [4, 2, 0, 5]), (7, mkFrame 9 [4, 2, 0, 5])] 9 = none :=
  recvPacket_matching 7 3 9 10 [4, 2, 0, 5] [1] [(7, mkFrame 9 [4, 2, 0, 5])]
    (by decide) (by decide) (by decide) (by decide)

/-- Claim C8 counterexample: a frame from the device whose declared MBAP
length field is 100 while the received byte count is 11 (so unit id + PDU
is actually 5 bytes, not 100) is accepted by modbus_RecvPacket, which
returns the received length and the PDU, instead of failing with a framing
error. -/
theorem recvPacket_accepts_inconsistent_length :
    modbus_RecvPacket 7 [(7, toLE16 5 ++ toLE16 0 ++ toLE16 100 ++ [255, 3, 2, 171, 205])] 5
      = some (11, [3, 2, 171, 205]) := by decide

/-- Claim C8 amended: modbus_RecvPacket performs no framing validation:
it never reads the declared length field, so for EVERY declared length l —
consistent with the received byte count or not — a frame from the device
whose transaction-id bytes match is accepted and its tail returned; no
inconsistency is ever detected.  Only the transaction id is checked. -/
theorem recvPacket_ignores_length_field (devAddr t l : Nat) (rest : List Nat)
    (ht : t < 65536) :
    modbus_RecvPacket devAddr [(devAddr, toLE16 t ++ toLE16 0 ++ toLE16 l ++ 255 :: rest)] t
      = some (7 + rest.length, rest) := by
  simp [modbus_RecvPacket, modbus_RecvBlock]
  refine ⟨?_, ?_, ?_⟩
  · simp [toLE16, fromLE16, List.getD]; omega
  · simp [toLE16]; omega
  · simp [toLE16]

theorem recvPacket_ignores_length_field_witness :
    modbus_RecvPacket 7 [(7, toLE16 6 ++ toLE16 0 ++ toLE16 99 ++ 255 :: [3, 2, 0, 0])] 6
      = some (7 + [3, 2, 0, 0].length, [3, 2, 0, 0]) :=
  recvPacket_ignores_length_field 7 6 99 [3, 2, 0, 0] (by decide)

theorem wsr_unfold (devAddr addr value n : Nat) (env : Env) (pduR : List Nat)
    (hrecv : modbus_RecvPacket devAddr env.frames
        ((modbus_SendPacket (reqPdu 6 addr value) env.r).2).toNat = some (n, pduR)) :
    (modbus_WriteSingleRegister devAddr addr value env).ret
      = if swap16 value ≠ fromLE16 (pduR.drop 4) ∨ swap16 addr ≠ fromLE16 (pduR.drop 2)
        then -1 else 0 := by
  simp only [modbus_WriteSingleRegister, hrecv]
  split <;> rfl

/-- Claim C4: modbus_WriteSingleRegister, delivered an echo response
carrying address addrE and value valE, returns 0 exactly when the echoed
address and value both equal those of the request (addr, value), and -1 on
any mismatch; and on a mismatch the -1 return is distinct from every
Modbus exception code, so the mismatch is not reported as a device
exception and the response is not silently accepted. -/
theorem writeSingleRegister_verifies_echo (devAddr r p addr value addrE valE : Nat)
    (junk : List Nat) (ha : addr < 65536) (hv : value < 65536)
    (haE : addrE < 65536) (hvE : valE < 65536) :
    ((modbus_WriteSingleRegister devAddr addr value (echoEnv devAddr r p addrE valE junk)).ret
      = if addrE = addr ∧ valE = value then 0 else -1)
    ∧ (¬(addrE = addr ∧ valE = value) →
        ∀ c ∈ modbusExceptionCodes,
          (modbus_WriteSingleRegister devAddr addr value (echoEnv devAddr r p addrE valE junk)).ret
            ≠ (c : Int)) := by
  have hm : r % 65535 < 65536 := by omega
  have hrecv : modbus_RecvPacket devAddr (echoEnv devAddr r p addrE valE junk).frames
      ((modbus_SendPacket (reqPdu 6 addr value) (echoEnv devAddr r p addrE valE junk).r).2).toNat
      = some (13, [6, p] ++ toLE16 (swap16 addrE) ++ toLE16 (swap16 valE)) := by
    simp [echoEnv, modbus_SendPacket, modbus_ConstructPacket, modbus_RecvPacket,
      modbus_RecvBlock, fromLE16_mkFrame _ _ hm, mkFrame_drop7, mkFrame_length, toLE16]
    omega
  have hret := wsr_unfold devAddr addr value 13 (echoEnv devAddr r p addrE valE junk)
    ([6, p] ++ toLE16 (swap16 addrE) ++ toLE16 (swap16 valE)) hrecv
  have hA : fromLE16 (([6, p] ++ toLE16 (swap16 addrE) ++ toLE16 (swap16 valE)).drop 2)
      = swap16 addrE := by
    have h1 : ([6, p] ++ toLE16 (swap16 addrE) ++ toLE16 (swap16 valE)).drop 2
        = toLE16 (swap16 addrE) ++ toLE16 (swap16 valE) := by
      simp [toLE16]
    rw [h1, fromLE16_toLE16_append _ _ (swap16_lt addrE)]
  have hV : fromLE16 (([6, p] ++ toLE16 (swap16 addrE) ++ toLE16 (swap16 valE)).drop 4)
      = swap16 valE := by
    have h2 : ([6, p] ++ toLE16 (swap16 addrE) ++ toLE16 (swap16 valE)).drop 4
        = toLE16 (swap16 valE) := by
      simp [toLE16]
    rw [h2, fromLE16_toLE16 _ (swap16_lt valE)]
  rw [hA, hV] at hret
  have key : (swap16 value ≠ swap16 valE ∨ swap16 addr ≠ swap16 addrE)
      ↔ ¬(addrE = addr ∧ valE = value) := by
    unfold swap16; omega
  have E : (modbus_WriteSingleRegister devAddr addr value
      (echoEnv devAddr r p addrE valE junk)).ret
      = if addrE = addr ∧ valE = value then 0 else -1 := by
    rw [hret]
    by_cases hc : addrE = addr ∧ valE = value
    · rw [if_neg (fun h => (key.mp h) hc), if_pos hc]
    · rw [if_pos (key.mpr hc), if_neg hc]
  refine ⟨E, ?_⟩
  intro hc c hcm
  rw [E, if_neg hc]
  simp only [modbusExceptionCodes, List.mem_cons] at hcm
  omega

theorem writeSingleRegister_verifies_echo_witness :
    ((modbus_WriteSingleRegister 7 10 1234 (echoEnv 7 5 0 10 9999 [])).ret
      = if (10 : Nat) = 10 ∧ (9999 : Nat) = 1234 then 0 else -1)
    ∧ (¬((10 : Nat) = 10 ∧ (9999 : Nat) = 1234) →
        ∀ c ∈ modbusExceptionCodes,
          (modbus_WriteSingleRegister 7 10 1234 (echoEnv 7 5 0 10 9999 [])).ret ≠ (c : Int)) :=
  writeSingleRegister_verifies_echo 7 5 0 10 1234 10 9999 [] (by decide) (by decide)
    (by decide) (by decide)
